import Mathlib

/-!
Verification of the RampForge real-time gateway backend.

Shallow embedding of:
- `backend/app/api/websocket.py` (token extraction, endpoint lifecycle),
- `backend/app/core/validators.py` (`validate_password_strength`),
- `backend/app/services/audit.py` (`json_serial`, `AuditService.log_action`),
and, modelled from the specification where the module is not part of the
source tree (`app/ws/manager.py`, `app/core/security.py`), the connection
registry, the client-message handler, the broadcast dispatcher and the
token decoder.

Python strings handled character-wise (split, strip, lower, slicing) are
embedded as `List Char`, matching Python's code-point semantics of `len`
and slicing.  The regex classes `[A-Z]`, `[a-z]` and the literal
special-character set are exact; `\d` is embedded as the full Unicode
`Nd` (decimal digit) category, the set Python's `re` module matches;
`str.lower` and `str.strip` are embedded at ASCII fidelity, which
covers every literal the header-parsing code compares against.
-/

namespace RampForge

/-- A Python `str` viewed as its sequence of code points. -/
abbrev PyStr := List Char

/-- The ASCII whitespace stripped by Python's `str.strip()`. -/
def isPySpace (c : Char) : Bool :=
  c == ' ' || c == '\t' || c == '\n' || c == '\r' ||
  c == Char.ofNat 11 || c == Char.ofNat 12

/-- `str.strip()`: drop leading and trailing whitespace. -/
def pyStrip (s : PyStr) : PyStr :=
  ((s.dropWhile isPySpace).reverse.dropWhile isPySpace).reverse

/-- ASCII lowering of one character, as `str.lower()` acts on ASCII. -/
def pyLowerChar (c : Char) : Char :=
  if 'A' ≤ c && c ≤ 'Z' then Char.ofNat (c.toNat + 32) else c

/-- `str.lower()` (ASCII range). -/
def pyLower (s : PyStr) : PyStr :=
  s.map pyLowerChar

/-- `str.startswith(pre)`. -/
def pyStartsWith : PyStr → PyStr → Bool
  | _, [] => true
  | [], _ => false
  | c :: cs, p :: ps => c == p && pyStartsWith cs ps

/-- `str.split(sep)` for a one-character separator (Python keeps empty
pieces, and splitting the empty string yields `[""]`). -/
def pySplit (sep : Char) : PyStr → List PyStr
  | [] => [[]]
  | c :: cs =>
    if c == sep then [] :: pySplit sep cs
    else
      match pySplit sep cs with
      | [] => [[c]]
      | h :: t => (c :: h) :: t

/-! ### Token extraction (`get_websocket_user`, websocket.py lines 32-59) -/

/-- One loop iteration's first test: `part.lower().startswith("bearer.")`. -/
def bearerCase (p : PyStr) : Bool :=
  pyStartsWith (pyLower p) "bearer.".data

/-- One loop iteration's second test: `len(part) > 20 and "." in part`. -/
def bareTokenCase (p : PyStr) : Bool :=
  decide (p.length > 20) && p.contains '.'

/-- The `for part in parts` loop of `get_websocket_user`: the first part
satisfying either branch wins (`break`); the bearer branch strips the
7-character `"Bearer."` marker (`part[7:]`). -/
def extractFromParts : List PyStr → Option PyStr
  | [] => none
  | p :: ps =>
    if bearerCase p then some (p.drop 7)
    else if bareTokenCase p then some p
    else extractFromParts ps

/-- `[p.strip() for p in protocols.split(",")]`. -/
def headerParts (protocols : PyStr) : List PyStr :=
  (pySplit ',' protocols).map pyStrip

/-- Header-channel extraction: guarded by the Python truthiness test
`if protocols:` on the header value (whose default is `""`). -/
def extractHeaderToken (protocols : PyStr) : Option PyStr :=
  if protocols.isEmpty then none
  else extractFromParts (headerParts protocols)

/-- Python truthiness of an optional string: `None` and `""` are falsy. -/
def pyTruthy (t : Option PyStr) : Bool :=
  match t with
  | none => false
  | some s => !s.isEmpty

/-- Lines 32-56 of websocket.py: header channel first; the `token` query
parameter is read under `if not token:`; the deprecation warning fires
under `if token:` after the query read.  Returns the resolved token and
whether the deprecation warning was logged. -/
def resolveToken (protocols : PyStr) (queryToken : Option PyStr) :
    Option PyStr × Bool :=
  let t1 := extractHeaderToken protocols
  if pyTruthy t1 then (t1, false)
  else (queryToken, pyTruthy queryToken)

/-- The validated claim set.  Modelled from the spec: `decode_access_token`
(`app/core/security.py`, not under the source tree) returns a decoded
claim set `{user_id, email, role}` or signals invalidity; the login
handler (auth.py lines 46-49) mints tokens carrying exactly these
claims. -/
structure Identity where
  user_id : Nat
  email : String
  role : String
deriving DecidableEq

/-- `get_websocket_user` (websocket.py lines 15-65): resolve the token,
fail on a falsy token (`if not token: return None`), otherwise hand it
to the decoder and fail when the decoder signals invalidity
(`if payload is None: return None`). -/
def get_websocket_user (protocols : PyStr) (queryToken : Option PyStr)
    (decode : PyStr → Option Identity) : Option Identity :=
  match (resolveToken protocols queryToken).1 with
  | none => none
  | some t => if t.isEmpty then none else decode t

/-- Line 127 of websocket.py:
`client_id = f"user_{user_data.get('user_id')}_{id(websocket)}"`,
where `objId` stands for `id(websocket)`, the transport object's
identity (its memory address in CPython). -/
def clientId (user_id objId : Nat) : String :=
  "user_" ++ toString user_id ++ "_" ++ toString objId

example : extractHeaderToken "Bearer.tok123".data = some "tok123".data := by decide
example : extractHeaderToken "".data = none := by decide
example : extractHeaderToken "abcdefghijk.abcdefghijk, Bearer.tok".data =
    some "abcdefghijk.abcdefghijk".data := by decide
example : clientId 1 100 = "user_1_100" := by decide

/-! ### Connection registry and matcher

`app.ws.manager` is imported by websocket.py but is not under the source
tree; the registry, the client-message handler and the dispatcher are
modelled from the specification (§3, §4.2-§4.5). -/

/-- Connection lifecycle states (spec §3). -/
inductive ConnState where
  | connecting
  | active
  | closed
deriving DecidableEq

/-- Modelled from the spec (§3): a Connection record — id, identity fixed
at connect time, subscription filter mapping, lifecycle state. -/
structure Conn where
  id : String
  identity : Identity
  filters : List (String × String)
  state : ConnState
deriving DecidableEq

/-- Modelled from the spec (§4.2): the registry's connection table. -/
structure Registry where
  conns : List Conn
deriving DecidableEq

/-- Modelled from the spec (§4.2) and the call site at websocket.py line
130: stores a Connection in `ACTIVE` state with empty subscription under
the client id computed by the endpoint (§9: ids are currently derived
from the transport object) and returns that id; the `connection_ack`
send is emitted by the endpoint model. -/
def Registry.connect (reg : Registry) (cid : String) (ident : Identity) :
    Registry × String :=
  (⟨reg.conns ++ [⟨cid, ident, [], .active⟩]⟩, cid)

/-- Modelled from the spec (§4.2): idempotent removal of the entry. -/
def Registry.disconnect (reg : Registry) (cid : String) : Registry :=
  ⟨reg.conns.filter (fun c => c.id ≠ cid)⟩

/-- Modelled from the spec (§4.2): connection count. -/
def Registry.count (reg : Registry) : Nat :=
  reg.conns.length

/-- Modelled from the spec (§4.2): per-connection id, identity, filters. -/
def Registry.summaries (reg : Registry) :
    List (String × Identity × List (String × String)) :=
  reg.conns.map (fun c => (c.id, c.identity, c.filters))

/-- Modelled from the spec (§4.2): atomic replace of one connection's
filter mapping; no effect on other connections. -/
def Registry.setSubscription (reg : Registry) (cid : String)
    (fs : List (String × String)) : Registry :=
  ⟨reg.conns.map (fun c => if c.id = cid then { c with filters := fs } else c)⟩

/-- Modelled from the spec (§4.2): clear one connection's filters. -/
def Registry.clearSubscription (reg : Registry) (cid : String) : Registry :=
  reg.setSubscription cid []

/-- Domain event kinds (spec §3). -/
inductive EventKind where
  | created
  | updated
  | deleted
  | conflict
deriving DecidableEq

/-- Modelled from the spec (§3): an immutable domain event. -/
structure Event where
  kind : EventKind
  timestamp : String
  entity_id : Nat
  action : String
  actor_user_id : Nat
  actor_email : String
  attributes : List (String × String)
  payload : String
deriving DecidableEq

/-- Modelled from the spec (§4.4 step 2, §4.5): a connection matches an
event if its filter mapping is empty, or every key of the mapping is
present in the event's attributes with an equal value; a missing
attribute fails that key. -/
def matchesAttrs (filters attrs : List (String × String)) : Bool :=
  filters.all (fun kv => attrs.lookup kv.1 == some kv.2)

/-! ### Client protocol handler and endpoint loop -/

/-- Server-to-client messages (spec §6). -/
inductive ServerMsg where
  | connectionAck
  | pong
  | errorMsg (message : String)
  | eventMsg (ev : Event)
deriving DecidableEq

/-- Parse outcome of one received text frame (spec §4.3): the recognized
commands, an unrecognized `type`, or a payload that does not parse as
the expected structure. -/
inductive ClientMsg where
  | subscribe (filters : List (String × String))
  | unsubscribe
  | ping
  | unknown (t : String)
  | malformed
deriving DecidableEq

/-- Modelled from the spec (§4.3 table): `manager.handle_client_message`
— `subscribe` replaces the filter mapping, `unsubscribe` clears it,
`ping` yields `pong`, an unrecognized type and a malformed payload yield
an `error` reply and leave the registry untouched; no case raises. -/
def handle_client_message (reg : Registry) (cid : String) :
    ClientMsg → Registry × Option ServerMsg
  | .subscribe fs => (reg.setSubscription cid fs, none)
  | .unsubscribe => (reg.clearSubscription cid, none)
  | .ping => (reg, some .pong)
  | .unknown t => (reg, some (.errorMsg ("Unknown message type: " ++ t)))
  | .malformed => (reg, some (.errorMsg "Invalid message format"))

/-- Observable side effects of the endpoint and the dispatcher. -/
inductive Effect where
  | send (m : ServerMsg)
  | deliver (cid : String) (ev : Event)
  | mgrDisconnect (cid : String)
  | close (code : Nat)
deriving DecidableEq

/-- How the receive loop of websocket.py ends: `WebSocketDisconnect`
raised by `receive_text` (graceful close), or any other exception
(unrecoverable transport/internal error). -/
inductive Terminator where
  | disconnectSignal
  | transportError
deriving DecidableEq

/-- The `while True` loop of `websocket_endpoint` (lines 132-149) run on
a script of parsed incoming frames followed by the exception that ends
it: each frame is handled, a reply (if any) is sent; the
`WebSocketDisconnect` handler calls `manager.disconnect`; the generic
handler calls `manager.disconnect` and closes with status 1011. -/
def runLoop (reg : Registry) (cid : String) :
    List ClientMsg → Terminator → Registry × List Effect
  | [], .disconnectSignal => (reg.disconnect cid, [.mgrDisconnect cid])
  | [], .transportError => (reg.disconnect cid, [.mgrDisconnect cid, .close 1011])
  | m :: ms, t =>
    let rm := handle_client_message reg cid m
    let rest := runLoop rm.1 cid ms t
    (rest.1, (match rm.2 with
      | some r => [Effect.send r]
      | none => []) ++ rest.2)

/-- `websocket_endpoint` (websocket.py lines 68-149): authenticate; on a
falsy result close with policy-violation status 1008 and return; else
derive the client id from the user id and the transport object identity
(line 127), register via `manager.connect` (which acks), and run the
receive loop until its terminating exception. -/
def websocket_endpoint (reg : Registry) (protocols : PyStr)
    (queryToken : Option PyStr) (decode : PyStr → Option Identity)
    (objId : Nat) (script : List ClientMsg) (t : Terminator) :
    Registry × List Effect :=
  match get_websocket_user protocols queryToken decode with
  | none => (reg, [.close 1008])
  | some ident =>
    let cid := clientId ident.user_id objId
    let rc := reg.connect cid ident
    let rest := runLoop rc.1 rc.2 script t
    (rest.1, Effect.send .connectionAck :: rest.2)

/-! ### Broadcast dispatcher -/

/-- Modelled from the spec (§4.4): per-connection delivery over the
snapshot — a matching connection gets the event on its send side; a send
failure is caught for that connection alone and triggers
`ConnectionRegistry.disconnect` for it; iteration continues.
`sendFails` says which connections' transports fail. -/
def dispatchEffects (ev : Event) (sendFails : String → Bool) :
    List Conn → List Effect
  | [] => []
  | c :: cs =>
    (if matchesAttrs c.filters ev.attributes then
      (if sendFails c.id then [Effect.mgrDisconnect c.id]
       else [Effect.deliver c.id ev])
     else []) ++ dispatchEffects ev sendFails cs

/-- Modelled from the spec (§4.4 step 1): dispatch over a registry
snapshot. -/
def dispatch (reg : Registry) (ev : Event) (sendFails : String → Bool) :
    List Effect :=
  dispatchEffects ev sendFails reg.conns

/-- Recognize a `manager.disconnect` call in the effect trace. -/
def isMgrDisconnect : Effect → Bool
  | .mgrDisconnect _ => true
  | _ => false

/-- Number of `manager.disconnect` calls in an effect trace. -/
def disconnectCalls (effs : List Effect) : Nat :=
  (effs.filter isMgrDisconnect).length

/-! ### Password validation (`validate_password_strength`, validators.py) -/

/-- The special-character class of validators.py line 42:
`[!@#$%^&*(),.?":\x7b\x7d|<>]`. -/
def specialChars : PyStr := "!@#$%^&*(),.?\":\x7b\x7d|<>".data

/-- The regex class `[A-Z]`. -/
def isUpperAZ (c : Char) : Bool := 'A' ≤ c && c ≤ 'Z'

/-- The regex class `[a-z]`. -/
def isLowerAZ (c : Char) : Bool := 'a' ≤ c && c ≤ 'z'

/-- The code-point ranges of the Unicode `Nd` (decimal digit) general
category, Unicode 14.0.0 — the 660 characters Python's `re` matches for
`\d` in a `str` pattern. -/
def ndDigitRanges : List (Nat × Nat) :=
  [(0x30, 0x39), (0x660, 0x669), (0x6F0, 0x6F9), (0x7C0, 0x7C9),
   (0x966, 0x96F), (0x9E6, 0x9EF), (0xA66, 0xA6F), (0xAE6, 0xAEF),
   (0xB66, 0xB6F), (0xBE6, 0xBEF), (0xC66, 0xC6F), (0xCE6, 0xCEF),
   (0xD66, 0xD6F), (0xDE6, 0xDEF), (0xE50, 0xE59), (0xED0, 0xED9),
   (0xF20, 0xF29), (0x1040, 0x1049), (0x1090, 0x1099), (0x17E0, 0x17E9),
   (0x1810, 0x1819), (0x1946, 0x194F), (0x19D0, 0x19D9), (0x1A80, 0x1A89),
   (0x1A90, 0x1A99), (0x1B50, 0x1B59), (0x1BB0, 0x1BB9), (0x1C40, 0x1C49),
   (0x1C50, 0x1C59), (0xA620, 0xA629), (0xA8D0, 0xA8D9), (0xA900, 0xA909),
   (0xA9D0, 0xA9D9), (0xA9F0, 0xA9F9), (0xAA50, 0xAA59), (0xABF0, 0xABF9),
   (0xFF10, 0xFF19), (0x104A0, 0x104A9), (0x10D30, 0x10D39),
   (0x11066, 0x1106F), (0x110F0, 0x110F9), (0x11136, 0x1113F),
   (0x111D0, 0x111D9), (0x112F0, 0x112F9), (0x11450, 0x11459),
   (0x114D0, 0x114D9), (0x11650, 0x11659), (0x116C0, 0x116C9),
   (0x11730, 0x11739), (0x118E0, 0x118E9), (0x11950, 0x11959),
   (0x11C50, 0x11C59), (0x11D50, 0x11D59), (0x11DA0, 0x11DA9),
   (0x16A60, 0x16A69), (0x16AC0, 0x16AC9), (0x16B50, 0x16B59),
   (0x1D7CE, 0x1D7FF), (0x1E140, 0x1E149), (0x1E2F0, 0x1E2F9),
   (0x1E950, 0x1E959), (0x1FBF0, 0x1FBF9)]

/-- The regex class `\d`: any Unicode decimal digit (category `Nd`), as
Python's `re.search(r'\d', ...)` matches it. -/
def isDigitNd (c : Char) : Bool :=
  ndDigitRanges.any (fun r => r.1 ≤ c.toNat && c.toNat ≤ r.2)

/-- Membership in the special-character class. -/
def isSpecialChar (c : Char) : Bool := specialChars.contains c

/-- `validate_password_strength` (validators.py lines 6-45): the five
checks in order, returning the first failure's message, `None` when all
pass (`re.search(cls, s)` succeeds iff some character of `s` is in the
class). -/
def validate_password_strength (password : PyStr) : Option String :=
  if password.length < 8 then
    some "Password must be at least 8 characters"
  else if !password.any isUpperAZ then
    some "Password must contain at least one uppercase letter"
  else if !password.any isLowerAZ then
    some "Password must contain at least one lowercase letter"
  else if !password.any isDigitNd then
    some "Password must contain at least one digit"
  else if !password.any isSpecialChar then
    some "Password must contain at least one special character (!@#$%^&*(),.?\":\x7b\x7d|<>)"
  else
    none

example : validate_password_strength "Admin123!@#".data = none := by decide
example : validate_password_strength "weak".data =
    some "Password must be at least 8 characters" := by decide
example : validate_password_strength "Password 123".data =
    some "Password must contain at least one special character (!@#$%^&*(),.?\":\x7b\x7d|<>)" := by
  decide

/-! ### Audit snapshots (`json_serial`, `AuditService.log_action`, audit.py) -/

/-- The universe of values an audit snapshot dict can hold: the types
`json.dumps` serializes natively, `datetime` (carried by its
`isoformat()` rendering), nested dicts, and anything else
(`unsupported`), on which the `default` hook raises. -/
inductive PyVal where
  | str (s : String)
  | int (n : Int)
  | bool (b : Bool)
  | pynone
  | dt (iso : String)
  | obj (fields : List (String × PyVal))
  | unsupported

/-- `json_serial` (audit.py lines 11-29): a `datetime` becomes its
ISO-8601 string; any other type raises `TypeError`. -/
def json_serial : PyVal → Except Unit String
  | .dt iso => .ok iso
  | _ => .error ()

/-- One hexadecimal digit, lowercase. -/
def hexDigit (n : Nat) : Char :=
  if n < 10 then Char.ofNat (48 + n) else Char.ofNat (87 + n)

/-- Four hexadecimal digits, as in Python's `\uXXXX` escapes. -/
def hex4 (n : Nat) : String :=
  String.mk [hexDigit (n / 4096 % 16), hexDigit (n / 256 % 16),
    hexDigit (n / 16 % 16), hexDigit (n % 16)]

/-- `json.dumps` escaping of one character of a string (default
`ensure_ascii=True`): `"` and `\` get a backslash, the named control
escapes apply, every other character outside `0x20`-`0x7e` becomes
`\uXXXX` (a surrogate pair beyond the BMP). -/
def jescapeChar (c : Char) : String :=
  if c == '"' then "\\\""
  else if c == '\\' then "\\\\"
  else if c == '\n' then "\\n"
  else if c == '\t' then "\\t"
  else if c == '\r' then "\\r"
  else if c == Char.ofNat 8 then "\\b"
  else if c == Char.ofNat 12 then "\\f"
  else if c.toNat < 32 || c.toNat > 126 then
    if c.toNat > 65535 then
      "\\u" ++ hex4 (55296 + (c.toNat - 65536) / 1024) ++
      "\\u" ++ hex4 (56320 + (c.toNat - 65536) % 1024)
    else
      "\\u" ++ hex4 c.toNat
  else
    String.mk [c]

/-- `json.dumps` rendering of a string value. -/
def jquote (s : String) : String :=
  "\"" ++ String.join (s.data.map jescapeChar) ++ "\""

mutual

/-- `json.dumps(v, default=json_serial)`: native rendering for the
supported types, the `default` hook for everything else (a `datetime`
becomes a JSON string of its ISO form; `unsupported` propagates the
`TypeError`). -/
def dumps : PyVal → Except Unit String
  | .str s => .ok (jquote s)
  | .int n => .ok (toString n)
  | .bool b => .ok (if b then "true" else "false")
  | .pynone => .ok "null"
  | .dt iso => (json_serial (.dt iso)).map jquote
  | .unsupported => (json_serial .unsupported).map jquote
  | .obj fs => (dumpsFields fs).map
      (fun parts => "\x7b" ++ String.intercalate ", " parts ++ "\x7d")

/-- Rendering of a dict's entries, in insertion order, with Python's
default separators `", "` and `": "`. -/
def dumpsFields : List (String × PyVal) → Except Unit (List String)
  | [] => .ok []
  | (k, v) :: rest => do
    let sv ← dumps v
    let srest ← dumpsFields rest
    .ok ((jquote k ++ ": " ++ sv) :: srest)

end

/-- The columns of the `audit_log` row built at audit.py lines 81-88. -/
structure AuditRow where
  user_id : Option Int
  entity_type : String
  entity_id : Int
  action : String
  before_json : Option String
  after_json : Option String
deriving DecidableEq

/-- Python truthiness of an optional dict: `None` and `{}` are falsy. -/
def pyTruthyDict (d : Option (List (String × PyVal))) : Bool :=
  match d with
  | none => false
  | some [] => false
  | some (_ :: _) => true

/-- `json.dumps(x, default=json_serial) if x else None` (audit.py lines
86-87). -/
def snapshotJson (d : Option (List (String × PyVal))) :
    Except Unit (Option String) :=
  match d with
  | none => .ok none
  | some [] => .ok none
  | some fs => (dumps (.obj fs)).map some

/-- `AuditService.log_action` (audit.py lines 41-91), restricted to the
row it builds: the two snapshot columns computed by `snapshotJson`, a
raised `TypeError` propagating to the caller. -/
def log_action (user_id : Option Int) (entity_type : String)
    (entity_id : Int) (action : String)
    (before after : Option (List (String × PyVal))) : Except Unit AuditRow := do
  let bj ← snapshotJson before
  let aj ← snapshotJson after
  .ok ⟨user_id, entity_type, entity_id, action, bj, aj⟩

example : dumps (.obj [("key", .str "value")]) = .ok "\x7b\"key\": \"value\"\x7d" := by
  rfl

/-! ## Claims -/

/-- C1, counterexample: the claim says two runs of the connect path that
differ only in the transport object's identity (same authenticated user
data) yield the same connection id; but websocket.py line 127 builds the
id from `id(websocket)`, so user 1 with object identities 100 and 200
gets two different connection ids. -/
theorem c1_counterexample : ¬ (clientId 1 100 = clientId 1 200) := by decide

/-- C1, amended: the connection id assigned at connect time is derived
from the transport object's identity — the endpoint builds
`f"user_{user_id}_{id(websocket)}"`, so two connect runs with the same
authenticated user data whose transport identities print differently
yield different connection ids. -/
theorem c1_amended (uid o1 o2 : Nat) (h : Nat.repr o1 ≠ Nat.repr o2) :
    clientId uid o1 ≠ clientId uid o2 := by
  intro heq
  apply h
  have hdata : (clientId uid o1).data = (clientId uid o2).data := by rw [heq]
  simp only [clientId, String.data_append] at hdata
  exact String.ext (List.append_cancel_left hdata)

/-- C1, witness for the amended theorem at user id 7, identities 100 and
200. -/
theorem c1_amended_witness :
    Nat.repr 100 ≠ Nat.repr 200 ∧ clientId 7 100 ≠ clientId 7 200 :=
  ⟨by decide, c1_amended 7 100 200 (by decide)⟩

/-- C2, counterexample: in the header value
`"abcdefghijk.abcdefghijk, Bearer.tok"` an element carries the
case-insensitive `"bearer."` marker, so per the claim the extracted
token must be `"tok"`; the code instead stops at the earlier element,
which satisfies the bare-token heuristic, and returns it. -/
theorem c2_counterexample :
    (headerParts "abcdefghijk.abcdefghijk, Bearer.tok".data).any bearerCase = true ∧
    extractHeaderToken "abcdefghijk.abcdefghijk, Bearer.tok".data ≠ some "tok".data := by
  decide

/-- C2, amended: the elements are scanned left to right and the first
element that either carries the `"bearer."` marker (the token is the
substring after the 7-character marker) or satisfies the bare-token
heuristic (length over 20 and a `"."`) supplies the token; within one
element the marker test precedes the heuristic, but a heuristic element
earlier in the list wins over a marker element later in the list. -/
theorem c2_amended (parts : List PyStr) :
    extractFromParts parts =
      (parts.find? (fun p => bearerCase p || bareTokenCase p)).map
        (fun p => if bearerCase p then p.drop 7 else p) := by
  induction parts with
  | nil => rfl
  | cons p ps ih =>
    cases hb : bearerCase p <;> cases hbare : bareTokenCase p <;>
      simp [extractFromParts, List.find?_cons, hb, hbare, ih]

/-- C3: authentication fails exactly when no token is found via either
channel (the resolved token is falsy) or the token-verification
collaborator signals invalidity; on every such failure the endpoint
closes with policy-violation status 1008 as its only action, so the
connection is never registered, never reaches `ACTIVE`, and the
registry's summaries and count are untouched. -/
theorem c3_auth_rejection (reg : Registry) (protocols : PyStr)
    (queryToken : Option PyStr) (decode : PyStr → Option Identity)
    (objId : Nat) (script : List ClientMsg) (t : Terminator) :
    (get_websocket_user protocols queryToken decode = none ↔
      (pyTruthy (resolveToken protocols queryToken).1 = false ∨
        ∃ s, (resolveToken protocols queryToken).1 = some s ∧ decode s = none)) ∧
    (get_websocket_user protocols queryToken decode = none →
      websocket_endpoint reg protocols queryToken decode objId script t =
        (reg, [.close 1008]) ∧
      (websocket_endpoint reg protocols queryToken decode objId script t).1.summaries =
        reg.summaries ∧
      (websocket_endpoint reg protocols queryToken decode objId script t).1.count =
        reg.count) := by
  constructor
  · cases h : (resolveToken protocols queryToken).1 with
    | none => simp [get_websocket_user, h, pyTruthy]
    | some s =>
      by_cases he : s.isEmpty <;>
        simp [get_websocket_user, h, pyTruthy, he]
  · intro hfail
    simp [websocket_endpoint, hfail]

/-- C3, witness: no header, no query parameter — the endpoint closes
with status 1008 and the empty registry is unchanged. -/
theorem c3_witness :
    get_websocket_user "".data none (fun _ => none) = none ∧
    websocket_endpoint ⟨[]⟩ "".data none (fun _ => none) 0 [] .disconnectSignal =
      (⟨[]⟩, [.close 1008]) :=
  ⟨rfl, ((c3_auth_rejection ⟨[]⟩ "".data none (fun _ => none) 0 []
    .disconnectSignal).2 rfl).1⟩

/-- C5: a client message that does not parse as the expected structure is
answered with an `error` reply, the registry — and with it the
connection's `ACTIVE` entry and the connection count — is unchanged, and
the receive loop continues exactly as it would on the rest of the
script. -/
theorem c5_malformed_recovered (reg : Registry) (cid : String)
    (ms : List ClientMsg) (t : Terminator) :
    handle_client_message reg cid .malformed =
      (reg, some (.errorMsg "Invalid message format")) ∧
    (handle_client_message reg cid .malformed).1.count = reg.count ∧
    runLoop reg cid (.malformed :: ms) t =
      ((runLoop reg cid ms t).1,
        Effect.send (.errorMsg "Invalid message format") :: (runLoop reg cid ms t).2) := by
  refine ⟨rfl, rfl, ?_⟩
  simp [runLoop, handle_client_message]

/-- C6: both termination paths of the receive loop — the graceful
`WebSocketDisconnect` signal and an unrecoverable error — call
`manager.disconnect` exactly once, whatever messages preceded them, and
the error path additionally closes the transport with internal-error
status 1011. -/
theorem c6_disconnect_exactly_once (reg : Registry) (cid : String)
    (ms : List ClientMsg) :
    disconnectCalls (runLoop reg cid ms .disconnectSignal).2 = 1 ∧
    disconnectCalls (runLoop reg cid ms .transportError).2 = 1 ∧
    Effect.close 1011 ∈ (runLoop reg cid ms .transportError).2 := by
  induction ms generalizing reg with
  | nil => refine ⟨rfl, rfl, ?_⟩; simp [runLoop]
  | cons m ms ih =>
    refine ⟨?_, ?_, ?_⟩ <;>
      cases m <;>
        simp [runLoop, handle_client_message, disconnectCalls, List.filter_append,
          isMgrDisconnect, Registry.setSubscription, Registry.clearSubscription] <;>
      simp [disconnectCalls, isMgrDisconnect] at ih ⊢ <;>
      first
        | exact (ih _).1
        | exact (ih _).2.1
        | exact (ih _).2.2

/-- C4: `matches(filters, attributes)` holds iff the filter mapping is
empty or every key of the mapping appears in the event's attributes with
an exactly equal value (a missing key fails); consequently a connection
with an empty filter mapping receives every dispatched event. -/
theorem c4_filter_matching :
    (∀ filters attrs : List (String × String),
      matchesAttrs filters attrs = true ↔
        (filters = [] ∨ ∀ kv ∈ filters, attrs.lookup kv.1 = some kv.2)) ∧
    (∀ (conns : List Conn) (ev : Event) (c : Conn),
      c ∈ conns → c.filters = [] →
        Effect.deliver c.id ev ∈ dispatchEffects ev (fun _ => false) conns) := by
  constructor
  · intro filters attrs
    simp only [matchesAttrs, List.all_eq_true, beq_iff_eq]
    constructor
    · exact fun h => Or.inr h
    · rintro (rfl | h)
      · intro kv hkv; cases hkv
      · exact h
  · intro conns ev c hc hf
    induction conns with
    | nil => cases hc
    | cons a as ih =>
      rcases List.mem_cons.mp hc with rfl | hmem
      · simp [dispatchEffects, hf, matchesAttrs]
      · cases hma : matchesAttrs a.filters ev.attributes <;>
          simp [dispatchEffects, hma, ih hmem]

/-- C4, witness: a connection with empty filters in a two-connection
snapshot receives a concrete event. -/
theorem c4_witness :
    Effect.deliver "user_2_51" ⟨.created, "t0", 5, "CREATE", 9, "a@b", [("direction", "IB")], "p"⟩ ∈
      dispatchEffects ⟨.created, "t0", 5, "CREATE", 9, "a@b", [("direction", "IB")], "p"⟩
        (fun _ => false)
        [⟨"user_1_50", ⟨1, "x@y", "admin"⟩, [("direction", "OB")], .active⟩,
         ⟨"user_2_51", ⟨2, "a@b", "operator"⟩, [], .active⟩] :=
  c4_filter_matching.2
    [⟨"user_1_50", ⟨1, "x@y", "admin"⟩, [("direction", "OB")], .active⟩,
     ⟨"user_2_51", ⟨2, "a@b", "operator"⟩, [], .active⟩]
    ⟨.created, "t0", 5, "CREATE", 9, "a@b", [("direction", "IB")], "p"⟩
    ⟨"user_2_51", ⟨2, "a@b", "operator"⟩, [], .active⟩
    (by simp) rfl

/-- C7: the two token channels are tried in a fixed order with first
success winning — when the negotiation header yields a (truthy) token
the query parameter does not influence the result and no deprecation
warning is logged; only when the header yields none does the `token`
query parameter supply the token, and the deprecation warning is logged
exactly when that query token is truthy. -/
theorem c7_token_channel_order (protocols : PyStr) (queryToken : Option PyStr) :
    (pyTruthy (extractHeaderToken protocols) = true →
      resolveToken protocols queryToken = (extractHeaderToken protocols, false)) ∧
    (pyTruthy (extractHeaderToken protocols) = false →
      resolveToken protocols queryToken = (queryToken, pyTruthy queryToken)) := by
  constructor <;> intro h <;> simp [resolveToken, h]

/-- C7, witness: a bearer header token wins over a present query token
with no warning; with an empty header the query token is taken and the
warning fires. -/
theorem c7_witness :
    (pyTruthy (extractHeaderToken "Bearer.tok123".data) = true ∧
      resolveToken "Bearer.tok123".data (some "qtok".data) =
        (extractHeaderToken "Bearer.tok123".data, false)) ∧
    (pyTruthy (extractHeaderToken "".data) = false ∧
      resolveToken "".data (some "qtok".data) =
        (some "qtok".data, pyTruthy (some "qtok".data))) :=
  ⟨⟨by decide, (c7_token_channel_order "Bearer.tok123".data (some "qtok".data)).1 (by decide)⟩,
   ⟨by decide, (c7_token_channel_order "".data (some "qtok".data)).2 (by decide)⟩⟩

/-- C8: during dispatch of one event a send failure is isolated to its
connection — every matching connection with a working transport receives
the event even when other connections fail, a failing matching
connection triggers a `manager.disconnect` call for itself, and a
disconnect is triggered only for a matching connection whose send
failed. -/
theorem c8_send_failure_isolation :
    (∀ (conns : List Conn) (ev : Event) (sendFails : String → Bool) (c : Conn),
      c ∈ conns → matchesAttrs c.filters ev.attributes = true →
        (sendFails c.id = false →
          Effect.deliver c.id ev ∈ dispatchEffects ev sendFails conns) ∧
        (sendFails c.id = true →
          Effect.mgrDisconnect c.id ∈ dispatchEffects ev sendFails conns)) ∧
    (∀ (conns : List Conn) (ev : Event) (sendFails : String → Bool) (d : String),
      Effect.mgrDisconnect d ∈ dispatchEffects ev sendFails conns →
        ∃ c ∈ conns, c.id = d ∧ matchesAttrs c.filters ev.attributes = true ∧
          sendFails d = true) := by
  constructor
  · intro conns ev sendFails c hc hm
    induction conns with
    | nil => cases hc
    | cons a as ih =>
      rcases List.mem_cons.mp hc with rfl | hmem
      · constructor <;> intro hf <;> simp [dispatchEffects, hm, hf]
      · have hrest := ih hmem
        constructor <;> intro hf <;>
          [have := hrest.1 hf; have := hrest.2 hf] <;>
          cases hma : matchesAttrs a.filters ev.attributes <;>
            cases hfa : sendFails a.id <;>
              simp [dispatchEffects, hma, hfa, this]
  · intro conns ev sendFails d hmem
    induction conns with
    | nil => simp [dispatchEffects] at hmem
    | cons a as ih =>
      simp only [dispatchEffects, List.mem_append] at hmem
      rcases hmem with hhd | htl
      · rcases hma : matchesAttrs a.filters ev.attributes <;> rw [hma] at hhd
        · simp at hhd
        · rcases hfa : sendFails a.id <;> rw [hfa] at hhd <;> simp at hhd
          rcases hhd with rfl
          exact ⟨a, List.mem_cons_self a as, rfl, hma, hfa⟩
      · rcases ih htl with ⟨c, hcm, hcid, hcma, hcf⟩
        exact ⟨c, List.mem_cons_of_mem a hcm, hcid, hcma, hcf⟩

/-- C8, witness: three receive-all connections, the middle one failing —
the failed one is disconnected, and the one after it still receives the
event. -/
theorem c8_witness :
    Effect.deliver "c3" ⟨.updated, "t1", 2, "UPDATE", 4, "u@v", [], "q"⟩ ∈
      dispatchEffects ⟨.updated, "t1", 2, "UPDATE", 4, "u@v", [], "q"⟩
        (fun s => s == "c2")
        [⟨"c1", ⟨1, "a", "r"⟩, [], .active⟩,
         ⟨"c2", ⟨2, "b", "r"⟩, [], .active⟩,
         ⟨"c3", ⟨3, "c", "r"⟩, [], .active⟩] ∧
    Effect.mgrDisconnect "c2" ∈
      dispatchEffects ⟨.updated, "t1", 2, "UPDATE", 4, "u@v", [], "q"⟩
        (fun s => s == "c2")
        [⟨"c1", ⟨1, "a", "r"⟩, [], .active⟩,
         ⟨"c2", ⟨2, "b", "r"⟩, [], .active⟩,
         ⟨"c3", ⟨3, "c", "r"⟩, [], .active⟩] :=
  ⟨(c8_send_failure_isolation.1
      [⟨"c1", ⟨1, "a", "r"⟩, [], .active⟩, ⟨"c2", ⟨2, "b", "r"⟩, [], .active⟩,
       ⟨"c3", ⟨3, "c", "r"⟩, [], .active⟩]
      ⟨.updated, "t1", 2, "UPDATE", 4, "u@v", [], "q"⟩
      (fun s => s == "c2")
      ⟨"c3", ⟨3, "c", "r"⟩, [], .active⟩
      (by simp) (by decide)).1 (by decide),
   (c8_send_failure_isolation.1
      [⟨"c1", ⟨1, "a", "r"⟩, [], .active⟩, ⟨"c2", ⟨2, "b", "r"⟩, [], .active⟩,
       ⟨"c3", ⟨3, "c", "r"⟩, [], .active⟩]
      ⟨.updated, "t1", 2, "UPDATE", 4, "u@v", [], "q"⟩
      (fun s => s == "c2")
      ⟨"c2", ⟨2, "b", "r"⟩, [], .active⟩
      (by simp) (by decide)).2 (by decide)⟩

/-- C9: `validate_password_strength` returns `None` iff the password has
length at least 8 and a character from each of the four classes;
otherwise it returns the first failing check's message in the order
length, uppercase, lowercase, digit, special; whitespace belongs to none
of the classes. -/
theorem c9_password_validation :
    (∀ p : PyStr,
      (validate_password_strength p = none ↔
        (8 ≤ p.length ∧ p.any isUpperAZ = true ∧ p.any isLowerAZ = true ∧
          p.any isDigitNd = true ∧ p.any isSpecialChar = true)) ∧
      (p.length < 8 →
        validate_password_strength p =
          some "Password must be at least 8 characters") ∧
      (8 ≤ p.length → p.any isUpperAZ = false →
        validate_password_strength p =
          some "Password must contain at least one uppercase letter") ∧
      (8 ≤ p.length → p.any isUpperAZ = true → p.any isLowerAZ = false →
        validate_password_strength p =
          some "Password must contain at least one lowercase letter") ∧
      (8 ≤ p.length → p.any isUpperAZ = true → p.any isLowerAZ = true →
        p.any isDigitNd = false →
        validate_password_strength p =
          some "Password must contain at least one digit") ∧
      (8 ≤ p.length → p.any isUpperAZ = true → p.any isLowerAZ = true →
        p.any isDigitNd = true → p.any isSpecialChar = false →
        validate_password_strength p =
          some "Password must contain at least one special character (!@#$%^&*(),.?\":\x7b\x7d|<>)")) ∧
    (isUpperAZ ' ' = false ∧ isLowerAZ ' ' = false ∧ isDigitNd ' ' = false ∧
      isSpecialChar ' ' = false ∧ isSpecialChar '\t' = false ∧
      isSpecialChar '\n' = false) := by
  constructor
  · intro p
    refine ⟨?_, ?_, ?_, ?_, ?_, ?_⟩
    · rcases Nat.lt_or_ge p.length 8 with h | h
      · simp only [validate_password_strength, if_pos h]
        constructor
        · intro hc; cases hc
        · intro hc; omega
      · cases hu : p.any isUpperAZ <;> cases hl : p.any isLowerAZ <;>
          cases hd : p.any isDigitNd <;> cases hs : p.any isSpecialChar <;>
            simp [validate_password_strength, Nat.not_lt.2 h, hu, hl, hd, hs, h]
    · intro h; simp [validate_password_strength, h]
    · intro h hu; simp [validate_password_strength, Nat.not_lt.2 h, hu]
    · intro h hu hl; simp [validate_password_strength, Nat.not_lt.2 h, hu, hl]
    · intro h hu hl hd
      simp [validate_password_strength, Nat.not_lt.2 h, hu, hl, hd]
    · intro h hu hl hd hs
      simp [validate_password_strength, Nat.not_lt.2 h, hu, hl, hd, hs]
  · exact ⟨rfl, rfl, rfl, by decide, by decide, by decide⟩

/-- C9, witness: a conforming password passes — also one whose only
digit is the non-ASCII decimal digit U+0661, matched by `\d`; a password
whose only special-character candidate is a blank fails on the
special-character check. -/
theorem c9_witness :
    validate_password_strength "Admin123!@#".data = none ∧
    validate_password_strength "Password١!".data = none ∧
    validate_password_strength "Password 123".data =
      some "Password must contain at least one special character (!@#$%^&*(),.?\":\x7b\x7d|<>)" :=
  ⟨((c9_password_validation.1 "Admin123!@#".data).1).mpr (by decide),
   ((c9_password_validation.1 "Password١!".data).1).mpr (by decide),
   (c9_password_validation.1 "Password 123".data).2.2.2.2.2
     (by decide) (by decide) (by decide) (by decide) (by decide)⟩

/-- On success, `snapshotJson` yields `None` exactly for a falsy (absent
or empty) snapshot dict. -/
theorem snapshotJson_none_iff (d : Option (List (String × PyVal)))
    (o : Option String) (h : snapshotJson d = Except.ok o) :
    o = none ↔ pyTruthyDict d = false := by
  rcases d with _ | fs
  · simp only [snapshotJson, Except.ok.injEq] at h
    subst h; simp [pyTruthyDict]
  · rcases fs with _ | ⟨f, fs⟩
    · simp only [snapshotJson, Except.ok.injEq] at h
      subst h; simp [pyTruthyDict]
    · cases hd : dumps (.obj (f :: fs)) with
      | error e => simp only [snapshotJson] at h; rw [hd] at h; cases h
      | ok s =>
        simp only [snapshotJson] at h; rw [hd] at h
        simp only [Except.map, Except.ok.injEq] at h
        subst h; simp [pyTruthyDict]

/-- On success over a nonempty snapshot dict, `snapshotJson` yields the
`json.dumps` serialization. -/
theorem snapshotJson_some (fs : List (String × PyVal)) (s : String)
    (o : Option String) (hne : fs ≠ [])
    (hd : dumps (.obj fs) = Except.ok s)
    (h : snapshotJson (some fs) = Except.ok o) : o = some s := by
  rcases fs with _ | ⟨f, fs⟩
  · exact absurd rfl hne
  · simp only [snapshotJson] at h; rw [hd] at h
    simp only [Except.map, Except.ok.injEq] at h
    exact h.symm

/-- C10: in a stored audit row, `before_json` is `None` exactly when the
`before` argument is absent or an empty mapping (the falsy empty dict is
indistinguishable from an absent snapshot), otherwise it is the
`json.dumps` serialization with `json_serial` rendering datetimes as
ISO-8601 strings and raising `TypeError` on any other unsupported value;
symmetrically for `after`. -/
theorem c10_audit_snapshots (u : Option Int) (et : String) (ei : Int)
    (ac : String) (before after : Option (List (String × PyVal))) :
    log_action u et ei ac none after = log_action u et ei ac (some []) after ∧
    (∀ row, log_action u et ei ac before after = .ok row →
      (row.before_json = none ↔ pyTruthyDict before = false) ∧
      (row.after_json = none ↔ pyTruthyDict after = false)) ∧
    (∀ fs s row, before = some fs → fs ≠ [] → dumps (.obj fs) = .ok s →
      log_action u et ei ac before after = .ok row → row.before_json = some s) ∧
    (∀ fs s row, after = some fs → fs ≠ [] → dumps (.obj fs) = .ok s →
      log_action u et ei ac before after = .ok row → row.after_json = some s) ∧
    (∀ iso, json_serial (.dt iso) = .ok iso) ∧
    (∀ v : PyVal, (∀ iso, v ≠ PyVal.dt iso) → json_serial v = .error ()) := by
  refine ⟨rfl, ?_, ?_, ?_, fun iso => rfl, ?_⟩
  · intro row h
    cases hb : snapshotJson before with
    | error e =>
      simp only [log_action, hb] at h
      exact (Except.noConfusion (h : (Except.error e : Except Unit AuditRow) = .ok row))
    | ok bj =>
      cases ha : snapshotJson after with
      | error e =>
        simp only [log_action, hb, ha] at h
        exact (Except.noConfusion (h : (Except.error e : Except Unit AuditRow) = .ok row))
      | ok aj =>
        simp only [log_action, hb, ha] at h
        have h' : Except.ok (AuditRow.mk u et ei ac bj aj) = Except.ok row := h
        obtain rfl : AuditRow.mk u et ei ac bj aj = row := by injection h'
        exact ⟨snapshotJson_none_iff before bj hb, snapshotJson_none_iff after aj ha⟩
  · intro fs s row hbe hne hd h
    subst hbe
    cases hb : snapshotJson (some fs) with
    | error e =>
      simp only [log_action, hb] at h
      exact (Except.noConfusion (h : (Except.error e : Except Unit AuditRow) = .ok row))
    | ok bj =>
      cases ha : snapshotJson after with
      | error e =>
        simp only [log_action, hb, ha] at h
        exact (Except.noConfusion (h : (Except.error e : Except Unit AuditRow) = .ok row))
      | ok aj =>
        simp only [log_action, hb, ha] at h
        have h' : Except.ok (AuditRow.mk u et ei ac bj aj) = Except.ok row := h
        obtain rfl : AuditRow.mk u et ei ac bj aj = row := by injection h'
        exact snapshotJson_some fs s bj hne hd hb
  · intro fs s row hbe hne hd h
    subst hbe
    cases hb : snapshotJson before with
    | error e =>
      simp only [log_action, hb] at h
      exact (Except.noConfusion (h : (Except.error e : Except Unit AuditRow) = .ok row))
    | ok bj =>
      cases ha : snapshotJson (some fs) with
      | error e =>
        simp only [log_action, hb, ha] at h
        exact (Except.noConfusion (h : (Except.error e : Except Unit AuditRow) = .ok row))
      | ok aj =>
        simp only [log_action, hb, ha] at h
        have h' : Except.ok (AuditRow.mk u et ei ac bj aj) = Except.ok row := h
        obtain rfl : AuditRow.mk u et ei ac bj aj = row := by injection h'
        exact snapshotJson_some fs s aj hne hd ha
  · intro v hv
    cases v with
    | dt iso => exact absurd rfl (hv iso)
    | str s => rfl
    | int n => rfl
    | bool b => rfl
    | pynone => rfl
    | obj fs => rfl
    | unsupported => rfl

/-- C10, witness: a one-entry `before` dict is serialized, an absent
`after` is stored as `None`, and `json_serial` raises on a
non-datetime. -/
theorem c10_witness :
    (AuditRow.mk (some 1) "user" 1 "CREATE" (some "\x7b\"k\": \"v\"\x7d") none).before_json =
      some "\x7b\"k\": \"v\"\x7d" ∧
    json_serial .unsupported = .error () :=
  ⟨(c10_audit_snapshots (some 1) "user" 1 "CREATE"
      (some [("k", .str "v")]) none).2.2.1
      [("k", .str "v")] "\x7b\"k\": \"v\"\x7d"
      (AuditRow.mk (some 1) "user" 1 "CREATE" (some "\x7b\"k\": \"v\"\x7d") none)
      rfl (by simp) rfl rfl,
   (c10_audit_snapshots (some 1) "user" 1 "CREATE"
      (some [("k", .str "v")]) none).2.2.2.2.2 .unsupported (by intro iso h; cases h)⟩

end RampForge
